import Mathlib

/-!
# ide-agent-kit — verification of the poll/trigger core

Shallow embedding of the change-detection and trigger-dispatch core of the
repository: the two polling scripts found in `src/unnamed/part_003`.

* the *minimal poller*: CLI parsing at lines 9–29, `poll` at lines 31–73,
  timer at lines 75–76;
* the *unified poller*: CLI parsing and cache loading at lines 214–256,
  `injectPrompt` at lines 258–274, `pollRoom` at lines 276–325, timer at
  line 328.

Both scripts keep an in-process watermark (`lastSeenId` /
`lastSeenMessageId`) and a durable copy in a JSON cache file written with
`writeFileSync`.  One poll cycle fetches the single most recent message of
the room and decides whether to advance the watermark and whether to
dispatch (inject a fixed instruction into a tmux session).

The embedding models one poll cycle as a pure function from the poller
state and the fetched message to the successor state together with the
list of externally observable actions of the cycle, in program order.
Sequences of cycles, interleaved with process restarts that reload the
durable watermark, are folded by `runC`.
-/

/-- A room message as the pollers see it: an opaque identifier (a UUID in
practice) and a text body.  `body = none` models a record whose `body`
field is null or undefined. -/
structure Msg where
  id : String
  body : Option String
  deriving DecidableEq, Repr

/-- Poller state: `mem` is the in-process watermark (`lastSeenId` in the
minimal script, `lastSeenMessageId` in the unified one, `null` modelled as
`none`); `disk` is the value stored in the durable cache file (`none` when
the file is absent or unreadable). -/
structure PollState where
  mem : Option String
  disk : Option String
  deriving DecidableEq, Repr

/-- Externally observable actions of one poll cycle, in program order:
`persist i` is a successful durable write of watermark `i`
(`writeFileSync` of the cache file), `dispatch i` is a dispatch attempt
for the message with id `i` (the tmux injection). -/
inductive Act where
  | persist (mid : String)
  | dispatch (mid : String)
  deriving DecidableEq, Repr

/-- JS `String.prototype.includes`: `includesStr hay needle` is true iff
`needle` occurs as a contiguous substring of `hay` (case-sensitive; the
empty needle is contained in every string, as in JS). -/
def includesStr (hay needle : String) : Bool :=
  decide (needle.data <:+: hay.data)

/-- JS `String.prototype.toLowerCase`, restricted to the ASCII range
(`Char.toLower` maps `A`–`Z` to `a`–`z` and fixes everything else); all
strings the scripts compare are ASCII. -/
def lowerStr (s : String) : String :=
  ⟨s.data.map Char.toLower⟩

/-- The minimal poller's self-authorship test, line 58:
`msg.body.includes(handle)` on the raw body, case-sensitive. -/
def isSelfAuthoredMin (handle body : String) : Bool :=
  includesStr body handle

/-- The minimal poller's trigger test, line 62:
`msg.body.toLowerCase().includes('check room') || msg.body.includes('@'+handle)`.
The `check room` phrase is matched case-insensitively, the mention token
case-sensitively on the raw body. -/
def isTriggerMin (handle body : String) : Bool :=
  includesStr (lowerStr body) "check room" || includesStr body ("@" ++ handle)

/-- The unified poller's self-authorship test, lines 306–309: the body is
first replaced by `""` when null (`latestMsg.body || ""`), then lowercased,
and the lowercased body is searched for `BOT_HANDLE` (itself lowercased at
line 225). -/
def isSelfAuthoredRoom (botHandle : String) (body : Option String) : Bool :=
  includesStr (lowerStr (body.getD "")) botHandle

/-- The unified poller's trigger test, line 313:
`bodyStr.includes('check room') || bodyStr.includes('@'+BOT_HANDLE)` where
`bodyStr` is the lowercased (defaulted) body. -/
def isTriggerRoom (botHandle : String) (body : Option String) : Bool :=
  includesStr (lowerStr (body.getD "")) "check room" ||
    includesStr (lowerStr (body.getD "")) ("@" ++ botHandle)

/-- One cycle of the minimal poller's `poll` (lines 49–68 of the script),
for a fetch that succeeded and returned the single message `m`.
`persistOk` says whether the `writeFileSync` durable write succeeds; a
failed write raises and is caught by the generic catch at line 70, ending
the cycle there (the in-process watermark has already been assigned on the
line before the write).  A `none` body models a null `body` field:
`msg.body.includes(handle)` at line 58 then throws a TypeError which the
same catch absorbs, with the watermark untouched (the conjunct is only
evaluated when `msg.id !== lastSeenId` short-circuits to true).  Returns
the successor state and the cycle's actions in program order. -/
def poll (handle : String) (s : PollState) (m : Msg) (persistOk : Bool) :
    PollState × List Act :=
  match s.mem with
  | none =>
      -- lines 52–56: initialization, no body inspection, no dispatch
      if persistOk then (⟨some m.id, some m.id⟩, [Act.persist m.id])
      else (⟨some m.id, s.disk⟩, [])
  | some w =>
      if m.id = w then (s, [])
      else
        match m.body with
        | none => (s, [])
        | some b =>
            -- line 58: new id AND not self-authored, in one conjunction
            if isSelfAuthoredMin handle b then (s, [])
            else if persistOk then
              if isTriggerMin handle b then
                (⟨some m.id, some m.id⟩, [Act.persist m.id, Act.dispatch m.id])
              else (⟨some m.id, some m.id⟩, [Act.persist m.id])
            else (⟨some m.id, s.disk⟩, [])

/-- One cycle of the unified poller's `pollRoom` (lines 290–321 of the
script), for a fetch that succeeded and returned the single message `m`.
`botHandle` is `BOT_HANDLE`, the lowercased `--handle` argument (line 225).
`persistOk` as in `poll`; a failed write raises into the catch at line 322
after the in-process watermark was assigned at line 303.  Unlike the
minimal poller, the self-authorship and trigger tests run *after* the
watermark has advanced and been persisted, and a null body is defaulted to
`""` at line 306 instead of raising. -/
def pollRoom (botHandle : String) (s : PollState) (m : Msg) (persistOk : Bool) :
    PollState × List Act :=
  match s.mem with
  | none =>
      -- lines 293–299: initialization, no body inspection, no dispatch
      if persistOk then (⟨some m.id, some m.id⟩, [Act.persist m.id])
      else (⟨some m.id, s.disk⟩, [])
  | some w =>
      if m.id = w then (s, [])
      else if persistOk then
        if !isSelfAuthoredRoom botHandle m.body && isTriggerRoom botHandle m.body then
          (⟨some m.id, some m.id⟩, [Act.persist m.id, Act.dispatch m.id])
        else (⟨some m.id, some m.id⟩, [Act.persist m.id])
      else (⟨some m.id, s.disk⟩, [])

/-- Outcome of the unified poller's `injectPrompt` (lines 258–274).  The
spec names the unreachable outcome `DispatchUnavailable`; in the script it
is the catch at line 271 logging a warning and returning normally. -/
inductive DispatchOutcome where
  | delivered
  | dispatchUnavailable
  deriving DecidableEq, Repr

/-- The probe command issued first by `injectPrompt`, line 263. -/
def tmuxProbeCmd (session : String) : String :=
  "tmux has-session -t " ++ session

/-- The unified poller's `injectPrompt` (lines 258–274): the shell
commands it executes, in order, together with its outcome. `reachable`
says whether the probe `tmux has-session` succeeds; when it fails the
rejection is caught at line 271 inside `injectPrompt` itself, so the
function never raises and executes no injection command.  When reachable,
the literal instruction is injected (line 266), a settling interval passes
(line 267) and a separate submit keystroke follows (line 268). -/
def injectPrompt (session : String) (reachable : Bool) :
    DispatchOutcome × List String :=
  if reachable then
    (DispatchOutcome.delivered,
      [tmuxProbeCmd session,
       "tmux send-keys -t " ++ session ++ " -l \"check room\"",
       "sleep 0.3",
       "tmux send-keys -t " ++ session ++ " Enter"])
  else
    (DispatchOutcome.dispatchUnavailable, [tmuxProbeCmd session])

/-- The shell commands the minimal poller runs to dispatch (lines 64–66):
it injects directly into the hard-coded tmux session `claude`, with no
reachability probe of any kind. -/
def minimalDispatchCmds : List String :=
  ["tmux send-keys -t claude -l \"check room\"",
   "sleep 0.3",
   "tmux send-keys -t claude Enter"]

/-- Events of a poller's lifetime: `obs m ok` is a poll cycle whose fetch
succeeded and returned message `m` (with `ok` the fate of the durable
write in that cycle); `restart` is a process restart, which reloads the
in-process watermark from the durable cache file (lines 25–29 / 248–256).
Cycles whose fetch failed or returned no rows leave the state untouched
and are omitted. -/
inductive Ev where
  | obs (m : Msg) (persistOk : Bool)
  | restart

/-- Fold a cycle function over a list of events, starting from state `s`,
collecting all actions in order. -/
def runC (c : PollState → Msg → Bool → PollState × List Act) :
    PollState → List Ev → PollState × List Act
  | s, [] => (s, [])
  | s, Ev.obs m ok :: evs =>
      ((runC c (c s m ok).1 evs).1, (c s m ok).2 ++ (runC c (c s m ok).1 evs).2)
  | s, Ev.restart :: evs => runC c ⟨s.disk, s.disk⟩ evs

/-- Ids of the messages observed by the polls of an event list. -/
def obsIds (evs : List Ev) : List String :=
  evs.filterMap fun e =>
    match e with
    | Ev.obs m _ => some m.id
    | Ev.restart => none

/-- Ids for which a dispatch attempt occurs in an action list. -/
def dispatchedIds (acts : List Act) : List String :=
  acts.filterMap fun a =>
    match a with
    | Act.dispatch i => some i
    | Act.persist _ => none

/-- `dispatchAfterPersist seen acts` checks that every dispatch attempt
in `acts` is preceded (earlier in the cycle's action sequence, i.e.
earlier in program order) by a successful durable write of the same
message id; `seen` accumulates the ids persisted so far. -/
def dispatchAfterPersist : List String → List Act → Bool
  | _, [] => true
  | seen, Act.persist i :: l => dispatchAfterPersist (i :: seen) l
  | seen, Act.dispatch i :: l => decide (i ∈ seen) && dispatchAfterPersist seen l

/-- Events of the timer/event-loop interaction of
`setInterval(poll, interval * 1000)` (line 75) and
`setInterval(pollRoom, 8000)` (line 328): `tick` is the periodic timer
firing, `cycleEnd` is a previously started cycle resolving.  Node's
`setInterval` invokes its callback on every tick regardless of whether an
earlier asynchronous invocation is still pending, and neither script
contains any in-flight guard, tick-skipping or `clearInterval`, so every
tick begins a new poll cycle unconditionally. -/
inductive LoopEv where
  | tick
  | cycleEnd

/-- Number of poll cycles begun but not yet finished after a sequence of
timer events, starting from `n` cycles in flight: each tick begins one
cycle (nothing in the scripts coalesces or skips a tick), each completion
ends one. -/
def inFlightAfter : Nat → List LoopEv → Nat
  | n, [] => n
  | n, LoopEv.tick :: l => inFlightAfter (n + 1) l
  | n, LoopEv.cycleEnd :: l => inFlightAfter (n - 1) l

/-- A fetch stream in which distinct messages carry pairwise-distinct ids:
because each poll fetches only the single newest message of the room and
the room is append-only, a message can be re-fetched over a contiguous run
of polls but never reappears after a different message has been fetched.
`blockyB l` checks exactly that: whenever an id recurs later in the
stream, it also is the very next observation. -/
def blockyB : List String → Bool
  | [] => true
  | a :: l => (!decide (a ∈ l) || decide (l.head? = some a)) && blockyB l

/-! ## Basic facts about the embedding -/

lemma dispatchedIds_append (l₁ l₂ : List Act) :
    dispatchedIds (l₁ ++ l₂) = dispatchedIds l₁ ++ dispatchedIds l₂ :=
  List.filterMap_append l₁ l₂ _

lemma obsIds_cons_obs (m : Msg) (ok : Bool) (tl : List Ev) :
    obsIds (Ev.obs m ok :: tl) = m.id :: obsIds tl := rfl

lemma obsIds_cons_restart (tl : List Ev) :
    obsIds (Ev.restart :: tl) = obsIds tl := rfl

lemma runC_nil (c : PollState → Msg → Bool → PollState × List Act) (s : PollState) :
    runC c s [] = (s, []) := rfl

lemma runC_obs (c : PollState → Msg → Bool → PollState × List Act)
    (s : PollState) (m : Msg) (ok : Bool) (evs : List Ev) :
    runC c s (Ev.obs m ok :: evs) =
      ((runC c (c s m ok).1 evs).1, (c s m ok).2 ++ (runC c (c s m ok).1 evs).2) := rfl

lemma runC_restart (c : PollState → Msg → Bool → PollState × List Act)
    (s : PollState) (evs : List Ev) :
    runC c s (Ev.restart :: evs) = runC c ⟨s.disk, s.disk⟩ evs := rfl

/-- Dispatch analysis of one minimal-poller cycle: either the cycle makes
no dispatch attempt, or it makes exactly one, for the observed message,
and then the watermark was previously a different (non-absent) value and
both the in-process and the durable watermark end up at the observed id. -/
lemma poll_dispatch_cases (h : String) (s : PollState) (m : Msg) (ok : Bool) :
    dispatchedIds (poll h s m ok).2 = [] ∨
      (dispatchedIds (poll h s m ok).2 = [m.id] ∧ s.mem ≠ some m.id ∧
        (poll h s m ok).1 = ⟨some m.id, some m.id⟩) := by
  rcases s with ⟨mem, disk⟩
  cases mem with
  | none => cases ok <;> simp [poll, dispatchedIds]
  | some w =>
      by_cases hid : m.id = w
      · left; simp [poll, hid, dispatchedIds]
      · cases hbody : m.body with
        | none => left; simp [poll, hid, hbody, dispatchedIds]
        | some b =>
            by_cases hsa : isSelfAuthoredMin h b
            · left; simp [poll, hid, hbody, hsa, dispatchedIds]
            · cases ok with
              | false => left; simp [poll, hid, hbody, hsa, dispatchedIds]
              | true =>
                  by_cases htr : isTriggerMin h b
                  · right
                    refine ⟨by simp [poll, hid, hbody, hsa, htr, dispatchedIds], ?_, ?_⟩
                    · intro hc
                      exact hid (Option.some.inj hc).symm
                    · simp [poll, hid, hbody, hsa, htr]
                  · left; simp [poll, hid, hbody, hsa, htr, dispatchedIds]

/-- Each component of the state after one minimal-poller cycle is either
unchanged or equal to the observed message's id. -/
lemma poll_state_cases (h : String) (s : PollState) (m : Msg) (ok : Bool) :
    ((poll h s m ok).1.mem = s.mem ∨ (poll h s m ok).1.mem = some m.id) ∧
      ((poll h s m ok).1.disk = s.disk ∨ (poll h s m ok).1.disk = some m.id) := by
  rcases s with ⟨mem, disk⟩
  cases mem with
  | none => cases ok <;> simp [poll]
  | some w =>
      by_cases hid : m.id = w
      · simp [poll, hid]
      · cases hbody : m.body with
        | none => simp [poll, hid, hbody]
        | some b =>
            by_cases hsa : isSelfAuthoredMin h b
            · simp [poll, hid, hbody, hsa]
            · cases ok with
              | false => simp [poll, hid, hbody, hsa]
              | true =>
                  by_cases htr : isTriggerMin h b <;>
                    simp [poll, hid, hbody, hsa, htr]

/-- Dispatch analysis of one unified-poller cycle, as for `poll`. -/
lemma pollRoom_dispatch_cases (h : String) (s : PollState) (m : Msg) (ok : Bool) :
    dispatchedIds (pollRoom h s m ok).2 = [] ∨
      (dispatchedIds (pollRoom h s m ok).2 = [m.id] ∧ s.mem ≠ some m.id ∧
        (pollRoom h s m ok).1 = ⟨some m.id, some m.id⟩) := by
  rcases s with ⟨mem, disk⟩
  cases mem with
  | none => cases ok <;> simp [pollRoom, dispatchedIds]
  | some w =>
      by_cases hid : m.id = w
      · left; simp [pollRoom, hid, dispatchedIds]
      · cases ok with
        | false => left; simp [pollRoom, hid, dispatchedIds]
        | true =>
            by_cases htr :
                (!isSelfAuthoredRoom h m.body && isTriggerRoom h m.body) = true
            · right
              refine ⟨by simp [pollRoom, hid, htr, dispatchedIds], ?_, ?_⟩
              · intro hc
                exact hid (Option.some.inj hc).symm
              · simp [pollRoom, hid, htr]
            · left; simp [pollRoom, hid, htr, dispatchedIds]

/-- State analysis of one unified-poller cycle, as for `poll`. -/
lemma pollRoom_state_cases (h : String) (s : PollState) (m : Msg) (ok : Bool) :
    ((pollRoom h s m ok).1.mem = s.mem ∨ (pollRoom h s m ok).1.mem = some m.id) ∧
      ((pollRoom h s m ok).1.disk = s.disk ∨ (pollRoom h s m ok).1.disk = some m.id) := by
  rcases s with ⟨mem, disk⟩
  cases mem with
  | none => cases ok <;> simp [pollRoom]
  | some w =>
      by_cases hid : m.id = w
      · simp [pollRoom, hid]
      · cases ok with
        | false => simp [pollRoom, hid]
        | true =>
            by_cases htr :
                (!isSelfAuthoredRoom h m.body && isTriggerRoom h m.body) = true <;>
              simp [pollRoom, hid, htr]

/-- Core run invariant, generic in the cycle function: over any event
list whose observed ids form distinct contiguous blocks (`blockyB`), and
from any starting state whose watermark components can still be observed
only as the very next fetch, the run dispatches each id at most once,
dispatches only observed ids, and never dispatches an id that both
watermark components already hold. -/
lemma runC_nodup_gen (c : PollState → Msg → Bool → PollState × List Act)
    (hc1 : ∀ s m ok, dispatchedIds (c s m ok).2 = [] ∨
      (dispatchedIds (c s m ok).2 = [m.id] ∧ s.mem ≠ some m.id ∧
        (c s m ok).1 = ⟨some m.id, some m.id⟩))
    (hc2 : ∀ s m ok, ((c s m ok).1.mem = s.mem ∨ (c s m ok).1.mem = some m.id) ∧
      ((c s m ok).1.disk = s.disk ∨ (c s m ok).1.disk = some m.id)) :
    ∀ (evs : List Ev) (s : PollState),
      blockyB (obsIds evs) = true →
      (∀ X : String, (s.mem = some X ∨ s.disk = some X) → X ∈ obsIds evs →
        (obsIds evs).head? = some X) →
      (dispatchedIds (runC c s evs).2).Nodup ∧
        (∀ x, x ∈ dispatchedIds (runC c s evs).2 → x ∈ obsIds evs) ∧
        (∀ X, s.mem = some X → s.disk = some X →
          X ∉ dispatchedIds (runC c s evs).2) := by
  intro evs
  induction evs with
  | nil =>
      intro s _ _
      simp [runC_nil, dispatchedIds]
  | cons e tl ih =>
      cases e with
      | restart =>
          intro s hb hh
          rw [runC_restart, obsIds_cons_restart] at *
          have hh' : ∀ X : String,
              ((⟨s.disk, s.disk⟩ : PollState).mem = some X ∨
                (⟨s.disk, s.disk⟩ : PollState).disk = some X) →
              X ∈ obsIds tl → (obsIds tl).head? = some X := by
            intro X hX hXl
            exact hh X (Or.inr (by rcases hX with hX | hX <;> exact hX)) hXl
          have := ih ⟨s.disk, s.disk⟩ hb hh'
          refine ⟨this.1, this.2.1, ?_⟩
          intro X hmem hdisk
          exact this.2.2 X hdisk hdisk
      | obs m ok =>
          intro s hb hh
          rw [obsIds_cons_obs] at hb hh
          have hbparts :
              (m.id ∉ obsIds tl ∨ (obsIds tl).head? = some m.id) ∧
                blockyB (obsIds tl) = true := by
            simpa [blockyB, Bool.and_eq_true, Bool.or_eq_true,
              Bool.not_eq_true', decide_eq_true_eq,
              decide_eq_false_iff_not] using hb
          have hside : m.id ∈ obsIds tl → (obsIds tl).head? = some m.id := by
            intro hmem
            rcases hbparts.1 with hno | hhead
            · exact absurd hmem hno
            · exact hhead
          -- the head condition transfers to the successor state
          have hh' : ∀ X : String,
              ((c s m ok).1.mem = some X ∨ (c s m ok).1.disk = some X) →
              X ∈ obsIds tl → (obsIds tl).head? = some X := by
            intro X hX hXl
            have hXfull : X ∈ m.id :: obsIds tl := List.mem_cons_of_mem _ hXl
            have hXeq : X = m.id → (obsIds tl).head? = some X := by
              intro he; subst he; exact hside hXl
            rcases hX with hX | hX
            · rcases (hc2 s m ok).1 with hm | hm
              · have : s.mem = some X := hm ▸ hX
                have hhd := hh X (Or.inl this) hXfull
                have : m.id = X := by
                  simpa using hhd
                exact hXeq this.symm
              · have : some m.id = some X := hm ▸ hX
                exact hXeq (Option.some.inj this).symm
            · rcases (hc2 s m ok).2 with hm | hm
              · have : s.disk = some X := hm ▸ hX
                have hhd := hh X (Or.inr this) hXfull
                have : m.id = X := by
                  simpa using hhd
                exact hXeq this.symm
              · have : some m.id = some X := hm ▸ hX
                exact hXeq (Option.some.inj this).symm
          have IH := ih (c s m ok).1 hbparts.2 hh'
          -- an id the starting state already holds in a component is not
          -- observed in the tail unless it is the current message
          have hnotin : ∀ X, s.mem = some X → m.id ≠ X → X ∉ obsIds tl := by
            intro X hmem hne hXl
            have hhd := hh X (Or.inl hmem) (List.mem_cons_of_mem _ hXl)
            have : m.id = X := by simpa using hhd
            exact hne this
          rw [runC_obs]
          simp only [dispatchedIds_append]
          rcases hc1 s m ok with hd | ⟨hd, hdm, hds⟩
          · -- the cycle dispatched nothing
            rw [hd]
            simp only [List.nil_append]
            refine ⟨IH.1, ?_, ?_⟩
            · intro x hx
              exact List.mem_cons_of_mem _ (IH.2.1 x hx)
            · intro X hmem hdisk hX
              by_cases hXm : m.id = X
              · subst hXm
                have h1 : (c s m ok).1.mem = some m.id := by
                  rcases (hc2 s m ok).1 with hm | hm
                  · rw [hm]; exact hmem
                  · exact hm
                have h2 : (c s m ok).1.disk = some m.id := by
                  rcases (hc2 s m ok).2 with hm | hm
                  · rw [hm]; exact hdisk
                  · exact hm
                exact IH.2.2 m.id h1 h2 hX
              · exact hnotin X hmem hXm (IH.2.1 X hX)
          · -- the cycle dispatched exactly the observed message
            rw [hd]
            have hmidnot : m.id ∉ dispatchedIds (runC c (c s m ok).1 tl).2 := by
              apply IH.2.2 m.id
              · rw [hds]
              · rw [hds]
            refine ⟨?_, ?_, ?_⟩
            · rw [List.singleton_append, List.nodup_cons]
              exact ⟨hmidnot, IH.1⟩
            · intro x hx
              rw [List.singleton_append, List.mem_cons] at hx
              rcases hx with hx | hx
              · subst hx; exact List.mem_cons_self _ _
              · exact List.mem_cons_of_mem _ (IH.2.1 x hx)
            · intro X hmem hdisk hX
              rw [List.singleton_append, List.mem_cons] at hX
              rcases hX with hX | hX
              · subst hX
                exact hdm hmem
              · by_cases hXm : m.id = X
                · exact hdm (hXm ▸ hmem)
                · exact hnotin X hmem hXm (IH.2.1 X hX)

/-! ## Claims -/

/-- C1: for every sequence of fetched messages in which distinct messages
carry pairwise-distinct ids (each message is fetched over one contiguous
run of polls, `blockyB`), each message id causes at most one dispatch
attempt over all polls that observe it — for the minimal and the unified
poller alike, across any interleaving of restarts that reload the
persisted watermark, starting from a fresh store; and a poll observing a
message whose id equals the reloaded persisted watermark performs no
action at all, in particular it never dispatches after a restart. -/
theorem c1_each_id_dispatches_at_most_once (h hr : String) (evs : List Ev)
    (hb : blockyB (obsIds evs) = true) :
    (dispatchedIds (runC (poll h) ⟨none, none⟩ evs).2).Nodup ∧
      (dispatchedIds (runC (pollRoom hr) ⟨none, none⟩ evs).2).Nodup ∧
      (∀ (w : String) (b : Option String) (ok : Bool),
        poll h ⟨some w, some w⟩ ⟨w, b⟩ ok = (⟨some w, some w⟩, []) ∧
          pollRoom hr ⟨some w, some w⟩ ⟨w, b⟩ ok = (⟨some w, some w⟩, [])) := by
  have hinit : ∀ X : String,
      ((⟨none, none⟩ : PollState).mem = some X ∨
        (⟨none, none⟩ : PollState).disk = some X) →
      X ∈ obsIds evs → (obsIds evs).head? = some X := by
    intro X hX
    rcases hX with hX | hX <;> simp at hX
  refine ⟨?_, ?_, ?_⟩
  · exact (runC_nodup_gen (poll h) (poll_dispatch_cases h)
      (poll_state_cases h) evs ⟨none, none⟩ hb hinit).1
  · exact (runC_nodup_gen (pollRoom hr) (pollRoom_dispatch_cases hr)
      (pollRoom_state_cases hr) evs ⟨none, none⟩ hb hinit).1
  · intro w b ok
    exact ⟨by simp [poll], by simp [pollRoom]⟩

/-- Witness for C1 at a concrete run: message `m1` fetched twice, a
restart, then message `m2` fetched twice; the hypothesis and the
conclusion are discharged at this input. -/
theorem c1_each_id_dispatches_at_most_once_witness :
    blockyB (obsIds
      [Ev.obs ⟨"m1", some "hello"⟩ true, Ev.obs ⟨"m1", some "hello"⟩ true,
       Ev.restart, Ev.obs ⟨"m2", some "please check room"⟩ true,
       Ev.obs ⟨"m2", some "please check room"⟩ true]) = true ∧
    ((dispatchedIds (runC (poll "bot") ⟨none, none⟩
      [Ev.obs ⟨"m1", some "hello"⟩ true, Ev.obs ⟨"m1", some "hello"⟩ true,
       Ev.restart, Ev.obs ⟨"m2", some "please check room"⟩ true,
       Ev.obs ⟨"m2", some "please check room"⟩ true]).2).Nodup ∧
      (dispatchedIds (runC (pollRoom "bot") ⟨none, none⟩
        [Ev.obs ⟨"m1", some "hello"⟩ true, Ev.obs ⟨"m1", some "hello"⟩ true,
         Ev.restart, Ev.obs ⟨"m2", some "please check room"⟩ true,
         Ev.obs ⟨"m2", some "please check room"⟩ true]).2).Nodup ∧
      (∀ (w : String) (b : Option String) (ok : Bool),
        poll "bot" ⟨some w, some w⟩ ⟨w, b⟩ ok = (⟨some w, some w⟩, []) ∧
          pollRoom "bot" ⟨some w, some w⟩ ⟨w, b⟩ ok = (⟨some w, some w⟩, []))) :=
  ⟨by decide, c1_each_id_dispatches_at_most_once "bot" "bot" _ (by decide)⟩

/-- C2 counterexample: the unified poller lowercases the body before the
anti-echo test, so a message whose raw body does *not* contain the handle
(here the handle appears only in a different letter casing) and which
contains the trigger phrase `check room` nevertheless produces **no**
dispatch, refuting the claim as stated (which demands exactly one
dispatch for such a message). -/
theorem c2_trigger_dispatch_counterexample :
    includesStr "ClaudeMM: check room" "claudemm" = false ∧
      includesStr (lowerStr "ClaudeMM: check room") "check room" = true ∧
      pollRoom "claudemm" ⟨some "m1", some "m1"⟩
        ⟨"m2", some "ClaudeMM: check room"⟩ true =
        (⟨some "m2", some "m2"⟩, [Act.persist "m2"]) := by decide

/-- C2 amended: a message whose id differs from the current (non-`none`)
watermark, which each poller's own self-authorship test clears and whose
body each poller's own trigger test matches, causes exactly one dispatch
attempt and exactly one watermark update (to that message's id) in that
cycle, provided the durable write succeeds. -/
theorem c2_trigger_dispatch_amended (h w id b : String) (d : Option String)
    (hid : id ≠ w)
    (hsaMin : isSelfAuthoredMin h b = false)
    (htrMin : isTriggerMin h b = true)
    (hsaRoom : isSelfAuthoredRoom h (some b) = false)
    (htrRoom : isTriggerRoom h (some b) = true) :
    poll h ⟨some w, d⟩ ⟨id, some b⟩ true =
        (⟨some id, some id⟩, [Act.persist id, Act.dispatch id]) ∧
      pollRoom h ⟨some w, d⟩ ⟨id, some b⟩ true =
        (⟨some id, some id⟩, [Act.persist id, Act.dispatch id]) := by
  constructor
  · simp [poll, hid, hsaMin, htrMin]
  · simp [pollRoom, hid, hsaRoom, htrRoom]

/-- Witness for C2 amended at a concrete input: handle `bot`, body
`please check room`, watermark moving from `m1` to `m2`. -/
theorem c2_trigger_dispatch_amended_witness :
    ("m2" : String) ≠ "m1" ∧
      (poll "bot" ⟨some "m1", some "m1"⟩ ⟨"m2", some "please check room"⟩ true =
          (⟨some "m2", some "m2"⟩, [Act.persist "m2", Act.dispatch "m2"]) ∧
        pollRoom "bot" ⟨some "m1", some "m1"⟩
            ⟨"m2", some "please check room"⟩ true =
          (⟨some "m2", some "m2"⟩, [Act.persist "m2", Act.dispatch "m2"])) :=
  ⟨by decide, c2_trigger_dispatch_amended "bot" "m1" "m2" "please check room"
    (some "m1") (by decide) (by decide) (by decide) (by decide) (by decide)⟩

/-- C3 counterexample: in the minimal poller the self-authorship test is
conjoined with the new-id test on line 58, so a new self-authored message
(the spec's own scenario: body `bot: check room now`, handle `bot`)
leaves the watermark at its old value — it does *not* advance to the
message's id, refuting the claim that suppression never prevents
watermark advancement. -/
theorem c3_selfauthored_advance_counterexample :
    isSelfAuthoredMin "bot" "bot: check room now" = true ∧
      poll "bot" ⟨some "m2", some "m2"⟩ ⟨"m3", some "bot: check room now"⟩ true =
        (⟨some "m2", some "m2"⟩, []) ∧
      (poll "bot" ⟨some "m2", some "m2"⟩
          ⟨"m3", some "bot: check room now"⟩ true).1.mem ≠ some "m3" := by
  decide

/-- C3 amended: in the unified poller a new self-authored message indeed
advances (and persists) the watermark without dispatching; in the minimal
poller a new self-authored message neither dispatches nor advances the
watermark — the cycle leaves the state unchanged. -/
theorem c3_selfauthored_advance_amended (bh h w id b : String)
    (d : Option String) (hid : id ≠ w)
    (hsaRoom : isSelfAuthoredRoom bh (some b) = true)
    (hsaMin : isSelfAuthoredMin h b = true) :
    pollRoom bh ⟨some w, d⟩ ⟨id, some b⟩ true =
        (⟨some id, some id⟩, [Act.persist id]) ∧
      poll h ⟨some w, d⟩ ⟨id, some b⟩ true = (⟨some w, d⟩, []) := by
  constructor
  · simp [pollRoom, hid, hsaRoom]
  · simp [poll, hid, hsaMin]

/-- Witness for C3 amended at the spec's scenario input. -/
theorem c3_selfauthored_advance_amended_witness :
    ("m3" : String) ≠ "m2" ∧
      (pollRoom "bot" ⟨some "m2", some "m2"⟩
          ⟨"m3", some "bot: check room now"⟩ true =
          (⟨some "m3", some "m3"⟩, [Act.persist "m3"]) ∧
        poll "bot" ⟨some "m2", some "m2"⟩
            ⟨"m3", some "bot: check room now"⟩ true =
          (⟨some "m2", some "m2"⟩, [])) :=
  ⟨by decide, c3_selfauthored_advance_amended "bot" "bot" "m2" "m3"
    "bot: check room now" (some "m2") (by decide) (by decide) (by decide)⟩

/-- C4 counterexample: a failed durable write does not stop either loop.
In the run below the second cycle's `writeFileSync` raises; the generic
catch absorbs it and the next cycle still executes — and even dispatches —
refuting the claim that persistence failure halts the loop. -/
theorem c4_persist_failure_halts_counterexample :
    dispatchedIds (runC (poll "bot") ⟨none, none⟩
        [Ev.obs ⟨"m1", some "x"⟩ true, Ev.obs ⟨"m2", some "y"⟩ false,
         Ev.obs ⟨"m3", some "please check room"⟩ true]).2 = ["m3"] ∧
      dispatchedIds (runC (pollRoom "bot") ⟨none, none⟩
        [Ev.obs ⟨"m1", some "x"⟩ true, Ev.obs ⟨"m2", some "y"⟩ false,
         Ev.obs ⟨"m3", some "please check room"⟩ true]).2 = ["m3"] := by
  decide

/-- C4 amended: a failed durable write is caught by the same generic
handler as fetch errors (line 70 / line 322): the failing cycle performs
no dispatch and leaves the durable watermark unchanged, and the loop
simply continues with the subsequent events — nothing halts it. -/
theorem c4_persist_failure_continues (h : String) (s : PollState) (m : Msg)
    (evs : List Ev) :
    (poll h s m false).2 = [] ∧
      (poll h s m false).1.disk = s.disk ∧
      runC (poll h) s (Ev.obs m false :: evs) =
        runC (poll h) (poll h s m false).1 evs ∧
      (pollRoom h s m false).2 = [] ∧
      (pollRoom h s m false).1.disk = s.disk ∧
      runC (pollRoom h) s (Ev.obs m false :: evs) =
        runC (pollRoom h) (pollRoom h s m false).1 evs := by
  have hpoll : (poll h s m false).2 = [] ∧ (poll h s m false).1.disk = s.disk := by
    rcases s with ⟨mem, disk⟩
    cases mem with
    | none => simp [poll]
    | some w =>
        by_cases hid : m.id = w
        · simp [poll, hid]
        · cases hbody : m.body with
          | none => simp [poll, hid, hbody]
          | some b =>
              by_cases hsa : isSelfAuthoredMin h b <;>
                simp [poll, hid, hbody, hsa]
  have hroom : (pollRoom h s m false).2 = [] ∧
      (pollRoom h s m false).1.disk = s.disk := by
    rcases s with ⟨mem, disk⟩
    cases mem with
    | none => simp [pollRoom]
    | some w =>
        by_cases hid : m.id = w <;> simp [pollRoom, hid]
  refine ⟨hpoll.1, hpoll.2, ?_, hroom.1, hroom.2, ?_⟩
  · rw [runC_obs, hpoll.1, List.nil_append]
  · rw [runC_obs, hroom.1, List.nil_append]

/-- C5 counterexample: the unified poller's self-authorship test is not
the claimed case-sensitive check on the raw body: a body containing the
handle only in a different letter casing (raw containment is false) *is*
treated as self-authored, because body and handle are both lowercased. -/
theorem c5_case_sensitive_counterexample :
    includesStr "ClaudeMM is deploying" "claudemm" = false ∧
      isSelfAuthoredRoom "claudemm" (some "ClaudeMM is deploying") = true := by
  decide

/-- C5 amended: the minimal poller's self-authorship test is the
case-sensitive substring check on the raw body — a new message is
swallowed whole (state unchanged, no action) exactly when the raw body
contains the handle with matching case — while the unified poller tests
the lowercased body against the (lowercased) handle, so a body containing
the handle in a different letter casing is treated as self-authored there
and never dispatches, though its watermark still advances. -/
theorem c5_self_authorship_amended (h w id b : String) (d : Option String)
    (hid : id ≠ w)
    (hsaRoom : isSelfAuthoredRoom h (some b) = true) :
    (poll h ⟨some w, d⟩ ⟨id, some b⟩ true = (⟨some w, d⟩, []) ↔
        isSelfAuthoredMin h b = true) ∧
      isSelfAuthoredRoom h (some b) = isSelfAuthoredMin h (lowerStr b) ∧
      pollRoom h ⟨some w, d⟩ ⟨id, some b⟩ true =
        (⟨some id, some id⟩, [Act.persist id]) := by
  refine ⟨?_, rfl, by simp [pollRoom, hid, hsaRoom]⟩
  constructor
  · intro heq
    by_cases hsa : isSelfAuthoredMin h b = true
    · exact hsa
    · exfalso
      by_cases htr : isTriggerMin h b = true <;>
        simp [poll, hid, hsa, htr] at heq
  · intro hsa
    simp [poll, hid, hsa]

/-- Witness for C5 amended at a concrete input: handle `claudemm`, body
`ClaudeMM is deploying`, watermark moving from `m1` to `m2`. -/
theorem c5_self_authorship_amended_witness :
    ("m2" : String) ≠ "m1" ∧
      isSelfAuthoredRoom "claudemm" (some "ClaudeMM is deploying") = true ∧
      ((poll "claudemm" ⟨some "m1", some "m1"⟩
            ⟨"m2", some "ClaudeMM is deploying"⟩ true =
            (⟨some "m1", some "m1"⟩, []) ↔
          isSelfAuthoredMin "claudemm" "ClaudeMM is deploying" = true) ∧
        isSelfAuthoredRoom "claudemm" (some "ClaudeMM is deploying") =
          isSelfAuthoredMin "claudemm" (lowerStr "ClaudeMM is deploying") ∧
        pollRoom "claudemm" ⟨some "m1", some "m1"⟩
            ⟨"m2", some "ClaudeMM is deploying"⟩ true =
          (⟨some "m2", some "m2"⟩, [Act.persist "m2"])) :=
  ⟨by decide, by decide,
    c5_self_authorship_amended "claudemm" "m1" "m2" "ClaudeMM is deploying"
      (some "m1") (by decide) (by decide)⟩

/-- C6: in every poll cycle of either poller, on every execution path,
any dispatch attempt is preceded — earlier in the cycle's action sequence,
i.e. earlier in program order — by the successful durable write of the
advanced watermark for that same message; no dispatch ever precedes the
persist. -/
theorem c6_persist_precedes_dispatch (h : String) (s : PollState) (m : Msg)
    (ok : Bool) :
    dispatchAfterPersist [] (poll h s m ok).2 = true ∧
      dispatchAfterPersist [] (pollRoom h s m ok).2 = true := by
  constructor
  · rcases s with ⟨mem, disk⟩
    cases mem with
    | none => cases ok <;> simp [poll, dispatchAfterPersist]
    | some w =>
        by_cases hid : m.id = w
        · simp [poll, hid, dispatchAfterPersist]
        · cases hbody : m.body with
          | none => simp [poll, hid, hbody, dispatchAfterPersist]
          | some b =>
              by_cases hsa : isSelfAuthoredMin h b
              · simp [poll, hid, hbody, hsa, dispatchAfterPersist]
              · cases ok with
                | false => simp [poll, hid, hbody, hsa, dispatchAfterPersist]
                | true =>
                    by_cases htr : isTriggerMin h b <;>
                      simp [poll, hid, hbody, hsa, htr, dispatchAfterPersist]
  · rcases s with ⟨mem, disk⟩
    cases mem with
    | none => cases ok <;> simp [pollRoom, dispatchAfterPersist]
    | some w =>
        by_cases hid : m.id = w
        · simp [pollRoom, hid, dispatchAfterPersist]
        · cases ok with
          | false => simp [pollRoom, hid, dispatchAfterPersist]
          | true =>
              by_cases htr :
                  (!isSelfAuthoredRoom h m.body && isTriggerRoom h m.body) = true <;>
                simp [pollRoom, hid, htr, dispatchAfterPersist]

/-- C7: the very first message observed for a handle (watermark `none`)
never dispatches, whatever its body, in either poller; the in-process
watermark advances to its id, and when the durable write succeeds the
persisted watermark does too (when it fails, the durable value is left
as it was). -/
theorem c7_first_observation_never_dispatches (h hr : String) (m : Msg)
    (d : Option String) :
    poll h ⟨none, d⟩ m true = (⟨some m.id, some m.id⟩, [Act.persist m.id]) ∧
      poll h ⟨none, d⟩ m false = (⟨some m.id, d⟩, []) ∧
      pollRoom hr ⟨none, d⟩ m true =
        (⟨some m.id, some m.id⟩, [Act.persist m.id]) ∧
      pollRoom hr ⟨none, d⟩ m false = (⟨some m.id, d⟩, []) :=
  ⟨by simp [poll], by simp [poll], by simp [pollRoom], by simp [pollRoom]⟩

/-- C8 counterexample: the minimal poller's dispatch (lines 63–66) is not
preceded by any reachability probe — its very first command is already the
injection, and no `tmux has-session` probe appears among its commands —
refuting the claim that *every* dispatch first probes the target. -/
theorem c8_probe_first_counterexample :
    minimalDispatchCmds.head? = some "tmux send-keys -t claude -l \"check room\"" ∧
      tmuxProbeCmd "claude" ∉ minimalDispatchCmds := by
  decide

/-- C8 amended: the unified poller's `injectPrompt` does probe first (its
first command is always `tmux has-session`); when the target is
unreachable it returns the `DispatchUnavailable` outcome without raising
and executes no injection command; and since the watermark has already
advanced to the dispatched message's id, a later poll observing the same
id performs no action, so the dispatch is never retried — in either
poller.  The minimal poller, however, injects directly with no probe. -/
theorem c8_dispatch_probe_amended (session h : String) (m : Msg)
    (d : Option String) (ok : Bool) :
    injectPrompt session false =
        (DispatchOutcome.dispatchUnavailable, [tmuxProbeCmd session]) ∧
      (injectPrompt session true).2.head? = some (tmuxProbeCmd session) ∧
      pollRoom h ⟨some m.id, d⟩ m ok = (⟨some m.id, d⟩, []) ∧
      poll h ⟨some m.id, d⟩ m ok = (⟨some m.id, d⟩, []) :=
  ⟨by simp [injectPrompt], by simp [injectPrompt],
    by simp [pollRoom], by simp [poll]⟩

/-- C9 counterexample: two timer ticks with the first cycle still
outstanding (no completion in between) leave two cycles in flight —
`setInterval` queues the callback on every tick and the scripts contain no
coalescing guard — refuting the claim that at most one cycle is ever in
flight. -/
theorem c9_no_overlap_counterexample :
    inFlightAfter 0 [LoopEv.tick, LoopEv.tick] = 2 ∧
      ¬ inFlightAfter 0 [LoopEv.tick, LoopEv.tick] ≤ 1 := by
  decide

/-- C9 amended: ticks are never skipped or coalesced: starting from `n`
cycles in flight, `k` consecutive timer ticks with no intervening
completion leave `n + k` concurrent cycles — in particular a tick firing
while a fetch is outstanding starts a second concurrent cycle (and a
second potential watermark writer) rather than being skipped. -/
theorem c9_ticks_never_skipped (n k : Nat) :
    inFlightAfter n (List.replicate k LoopEv.tick) = n + k := by
  induction k generalizing n with
  | zero => simp [inFlightAfter]
  | succ k ih =>
      rw [List.replicate_succ]
      show inFlightAfter (n + 1) (List.replicate k LoopEv.tick) = n + (k + 1)
      rw [ih]
      omega

/-- C10: a new message with a null body is defaulted to the empty string
by the unified poller (line 306): it is classified as neither
self-authored nor a trigger (for a non-empty handle), the watermark
advances — and is persisted — and no dispatch occurs; the minimal poller
instead throws in `msg.body.includes(handle)` on line 58, so its cycle is
aborted by the generic catch with the watermark unchanged and no
dispatch. -/
theorem c10_null_body (bh h w id : String) (d : Option String)
    (hbh : bh ≠ "") (hid : id ≠ w) :
    isSelfAuthoredRoom bh none = false ∧
      isTriggerRoom bh none = false ∧
      pollRoom bh ⟨some w, d⟩ ⟨id, none⟩ true =
        (⟨some id, some id⟩, [Act.persist id]) ∧
      poll h ⟨some w, d⟩ ⟨id, none⟩ true = (⟨some w, d⟩, []) := by
  have hdata : bh.data ≠ [] := by
    intro hnil
    apply hbh
    cases bh with
    | mk l =>
        simp only [String.data] at hnil
        rw [hnil]
  have hsa : isSelfAuthoredRoom bh none = false := by
    simp only [isSelfAuthoredRoom, Option.getD, includesStr]
    rw [decide_eq_false_iff_not]
    intro hinf
    exact hdata (List.sublist_nil.mp hinf.sublist)
  have hmention : includesStr "" ("@" ++ bh) = false := by
    simp only [includesStr]
    rw [decide_eq_false_iff_not]
    intro hinf
    have := List.sublist_nil.mp hinf.sublist
    rw [String.data_append] at this
    simp at this
  have htr : isTriggerRoom bh none = false := by
    simp only [isTriggerRoom, Option.getD]
    rw [Bool.or_eq_false_iff]
    exact ⟨by decide, hmention⟩
  refine ⟨hsa, htr, ?_, by simp [poll, hid]⟩
  simp [pollRoom, hid, htr]

/-- Witness for C10 at a concrete input: handle `bot`, a null-bodied
message `m2` arriving over watermark `m1`. -/
theorem c10_null_body_witness :
    ("bot" : String) ≠ "" ∧ ("m2" : String) ≠ "m1" ∧
      (isSelfAuthoredRoom "bot" none = false ∧
        isTriggerRoom "bot" none = false ∧
        pollRoom "bot" ⟨some "m1", some "m1"⟩ ⟨"m2", none⟩ true =
          (⟨some "m2", some "m2"⟩, [Act.persist "m2"]) ∧
        poll "bot" ⟨some "m1", some "m1"⟩ ⟨"m2", none⟩ true =
          (⟨some "m1", some "m1"⟩, [])) :=
  ⟨by decide, by decide,
    c10_null_body "bot" "bot" "m1" "m2" (some "m1") (by decide) (by decide)⟩

-- sanity checks of the embedding on the spec's scenarios (section 8)
example :
    poll "bot" ⟨none, none⟩ ⟨"m1", some "hello"⟩ true =
      (⟨some "m1", some "m1"⟩, [Act.persist "m1"]) := by decide

example :
    poll "bot" ⟨some "m1", some "m1"⟩ ⟨"m2", some "please check room"⟩ true =
      (⟨some "m2", some "m2"⟩, [Act.persist "m2", Act.dispatch "m2"]) := by decide

-- a mention of the handle necessarily contains the handle, so the
-- anti-echo test suppresses it: the mention disjunct of the trigger is
-- unreachable in both pollers
example :
    poll "bot" ⟨some "m1", some "m1"⟩ ⟨"m2", some "@bot please look"⟩ true =
      (⟨some "m1", some "m1"⟩, []) := by decide

example :
    pollRoom "bot" ⟨some "m2", some "m2"⟩ ⟨"m3", some "bot: check room now"⟩ true =
      (⟨some "m3", some "m3"⟩, [Act.persist "m3"]) := by decide

example :
    poll "bot" ⟨some "m2", some "m2"⟩ ⟨"m3", some "bot: check room now"⟩ true =
      (⟨some "m2", some "m2"⟩, []) := by decide
